import Mathlib

/-!
# Verification of the ebook2audio generation pipeline

Shallow embedding, in Lean 4, of the parts of the repository that the
specification's testable properties talk about:

* `src/core/rate_limiter.py` — the `RateLimiter` class;
* `src/generator/hindi_manhwa_generator.py` — the resumable outline and
  chapter stages and the JSON checkpoint loaders;
* `src/generator/chapter_outline_builder.py` — the batch-response
  validation logic;
* `src/generator/context_manager.py` — previous-chapter context assembly.

Modelling conventions.  Wall-clock instants are natural numbers of seconds
(the code never looks at sub-second precision).  For a Python
`timedelta = now - t` with `now ≥ t`, `.days` is `(now - t) / 86400` and
`.seconds` is `(now - t) % 86400`; both are mirrored below.  External
generation calls are oracles passed in as functions, and the files the
stages read and write are explicit fields of a state record.  Fallible
Python code (uncaught exceptions) is embedded with `Option`, `none`
standing for an exception escaping the translated fragment.
-/

namespace Ebook2Audio

/-! ## Rate limiter (`src/core/rate_limiter.py`) -/

/-- Python `timedelta.seconds` of `now - t` (for `now ≥ t`): the
seconds component after whole days are removed. -/
def tdSeconds (now t : Nat) : Nat := (now - t) % 86400

/-- Python `timedelta.days` of `now - t` (for `now ≥ t`). -/
def tdDays (now t : Nat) : Nat := (now - t) / 86400

/-- State of `RateLimiter` (`__init__`): quotas and the mutable
bookkeeping fields. -/
structure RateLimiter where
  rpm : Nat
  tpm : Nat
  rpd : Nat
  request_times : List Nat
  daily_requests : Nat
  last_reset : Nat
deriving Repr, DecidableEq

/-- The daily-limit denial string built in `can_make_request`. -/
def dailyMsg (rpd : Nat) : String :=
  "Daily limit reached (" ++ toString rpd ++ " requests/day)"

/-- The per-minute denial string built in `can_make_request`. -/
def rateMsg (wait rpm : Nat) : String :=
  "Rate limit: wait " ++ toString wait ++ "s (max " ++ toString rpm ++ " requests/min)"

/-- First two lines of `can_make_request`: reset the daily counter when
`(now - self.last_reset).days >= 1`. -/
def daily_reset_step (now : Nat) (rl : RateLimiter) : RateLimiter :=
  if 1 ≤ tdDays now rl.last_reset then
    { rl with daily_requests := 0, last_reset := now }
  else rl

/-- `RateLimiter.can_make_request`.  Returns the `(allowed, message)` pair
together with the mutated state.  `none` models the `IndexError` Python
raises at `self.request_times[0]` when `rpm = 0` and the pruned window is
empty. -/
def can_make_request (now : Nat) (rl : RateLimiter) :
    Option (Bool × String × RateLimiter) :=
  let rl1 := daily_reset_step now rl
  if rl1.rpd ≤ rl1.daily_requests then
    some (false, dailyMsg rl1.rpd, rl1)
  else
    let pruned := rl1.request_times.filter (fun t => tdSeconds now t < 60)
    let rl2 := { rl1 with request_times := pruned }
    if rl2.rpm ≤ pruned.length then
      match pruned with
      | [] => none
      | t0 :: _ => some (false, rateMsg (60 - tdSeconds now t0) rl2.rpm, rl2)
    else
      some (true, "OK", rl2)

/-- `RateLimiter.record_request`: append the current time, bump the daily
counter. -/
def record_request (now : Nat) (rl : RateLimiter) : RateLimiter :=
  { rl with request_times := rl.request_times ++ [now],
            daily_requests := rl.daily_requests + 1 }

/-- `RateLimiter.get_wait_time`. -/
def get_wait_time (now : Nat) (rl : RateLimiter) : Nat :=
  match rl.request_times with
  | [] => 0
  | oldest :: _ =>
    let elapsed := tdSeconds now oldest
    if elapsed < 60 then max 0 (60 - elapsed + 1) else 0

/-! ### Rate-limiter lemmas -/

/-- Filtering a list that contains an element failing the predicate
strictly shrinks it. -/
theorem length_filter_lt_of_mem {α : Type} (p : α → Bool) :
    ∀ (l : List α) (x : α), x ∈ l → p x = false →
      (l.filter p).length < l.length := by
  intro l
  induction l with
  | nil => intro x hx _; cases hx
  | cons a l ih =>
    intro x hx hpx
    cases hx with
    | head =>
      simp only [List.filter_cons, hpx]
      exact Nat.lt_succ_of_le (List.length_filter_le p l)
    | tail _ hmem =>
      simp only [List.filter_cons]
      cases hpa : p a with
      | true =>
        simpa using Nat.succ_lt_succ (ih x hmem hpx)
      | false =>
        exact Nat.lt_succ_of_lt (ih x hmem hpx)

/-- When less than a day has elapsed since the last reset, the daily reset
does not fire. -/
theorem daily_reset_step_id (now : Nat) (rl : RateLimiter)
    (h : now - rl.last_reset < 86400) : daily_reset_step now rl = rl := by
  unfold daily_reset_step tdDays
  rw [Nat.div_eq_of_lt h]
  simp

/-- **C1.** With fewer than a day since the daily reset and the daily quota
not exhausted: (1) whenever the 60-second rolling window still holds at
least `rpm` timestamps, `can_make_request` denies with the exact string
`"Rate limit: wait <n>s (max <rpm> requests/min)"` and the computed wait
`n = 60 - elapsed(oldest)` satisfies `0 < n ≤ 60`; (2) concretely, with
quotas `rpm = 2, rpd = 100`, after two recorded requests a third call in
the same minute is denied with that message; (3) once 60 seconds have
passed since the oldest of the (at most `rpm`) recorded requests, the call
is allowed again. -/
theorem c1_minute_window_deny_then_drain :
    (∀ (now : Nat) (rl : RateLimiter) (t0 : Nat) (ts : List Nat),
      now - rl.last_reset < 86400 →
      rl.daily_requests < rl.rpd →
      rl.request_times.filter (fun t => tdSeconds now t < 60) = t0 :: ts →
      rl.rpm ≤ (t0 :: ts).length →
      can_make_request now rl =
        some (false, rateMsg (60 - tdSeconds now t0) rl.rpm,
          { rl with request_times := t0 :: ts }) ∧
      0 < 60 - tdSeconds now t0 ∧ 60 - tdSeconds now t0 ≤ 60)
    ∧
    (can_make_request 30
        (record_request 12 (record_request 5
          { rpm := 2, tpm := 1000000, rpd := 100,
            request_times := [], daily_requests := 0, last_reset := 0 })) =
      some (false, "Rate limit: wait 35s (max 2 requests/min)",
        { rpm := 2, tpm := 1000000, rpd := 100,
          request_times := [5, 12], daily_requests := 2, last_reset := 0 }))
    ∧
    (∀ (now : Nat) (rl : RateLimiter),
      now - rl.last_reset < 86400 →
      rl.daily_requests < rl.rpd →
      rl.request_times.length ≤ rl.rpm →
      (∀ t ∈ rl.request_times, now - t < 86400) →
      (∃ t ∈ rl.request_times, 60 ≤ now - t) →
      (can_make_request now rl).map (fun r => r.1) = some true) := by
  refine ⟨?_, by decide, ?_⟩
  · intro now rl t0 ts hday hquota hfilter hlen
    have ht0 : tdSeconds now t0 < 60 := by
      have hmem : t0 ∈ rl.request_times.filter
          (fun t => decide (tdSeconds now t < 60)) := by
        rw [hfilter]; exact List.mem_cons_self _ _
      simpa using List.of_mem_filter hmem
    refine ⟨?_, by omega, Nat.sub_le _ _⟩
    simp only [can_make_request, daily_reset_step_id now rl hday, hfilter]
    rw [if_neg (by omega), if_pos hlen]
  · intro now rl hday hquota hlen hwithin hold
    obtain ⟨t, htmem, htold⟩ := hold
    have hpt : decide (tdSeconds now t < 60) = false := by
      have : tdSeconds now t = now - t := Nat.mod_eq_of_lt (hwithin t htmem)
      simp only [decide_eq_false_iff_not, this]
      omega
    have hshrink :
        (rl.request_times.filter (fun t => decide (tdSeconds now t < 60))).length
          < rl.request_times.length :=
      length_filter_lt_of_mem _ rl.request_times t htmem hpt
    simp only [can_make_request, daily_reset_step_id now rl hday]
    rw [if_neg (by omega), if_neg (by omega)]
    rfl

/-- Witness for C1: the concrete `rpm = 2, rpd = 100` scenario (deny at 35
seconds of wait) and a drained window (allow again at `now = 100`). -/
theorem c1_minute_window_deny_then_drain_witness :
    (can_make_request 30
        { rpm := 2, tpm := 1000000, rpd := 100,
          request_times := [5, 12], daily_requests := 2, last_reset := 0 } =
      some (false, rateMsg (60 - tdSeconds 30 5) 2,
        { rpm := 2, tpm := 1000000, rpd := 100,
          request_times := [5, 12], daily_requests := 2, last_reset := 0 }) ∧
      0 < 60 - tdSeconds 30 5 ∧ 60 - tdSeconds 30 5 ≤ 60)
    ∧
    ((can_make_request 100
        { rpm := 2, tpm := 1000000, rpd := 100,
          request_times := [5, 12], daily_requests := 2, last_reset := 0 }).map
      (fun r => r.1) = some true) := by
  constructor
  · exact c1_minute_window_deny_then_drain.1 30
      { rpm := 2, tpm := 1000000, rpd := 100,
        request_times := [5, 12], daily_requests := 2, last_reset := 0 }
      5 [12] (by decide) (by decide) (by decide) (by decide)
  · exact c1_minute_window_deny_then_drain.2.2 100
      { rpm := 2, tpm := 1000000, rpd := 100,
        request_times := [5, 12], daily_requests := 2, last_reset := 0 }
      (by decide) (by decide) (by decide) (by decide)
      ⟨5, by decide, by decide⟩

/-- **C4.** Daily quota behaviour: (1) recording `n` requests raises the
daily counter by `n`; (2) while less than one day has elapsed since the
last reset, a state whose daily counter has reached the daily quota is
denied with the daily-limit message and the state is left unchanged, so
the denial persists until the window rolls over; (3) the daily reset
mutates the state only when at least one day of wall-clock time has
elapsed since the last reset, and (4) whenever at least one day has
elapsed it zeroes the counter and restarts the window at `now`. -/
theorem c4_daily_quota_denies_until_rollover :
    (∀ (times : List Nat) (rl : RateLimiter),
      (times.foldl (fun s t => record_request t s) rl).daily_requests =
        rl.daily_requests + times.length)
    ∧
    (∀ (now : Nat) (rl : RateLimiter),
      now - rl.last_reset < 86400 →
      rl.rpd ≤ rl.daily_requests →
      can_make_request now rl = some (false, dailyMsg rl.rpd, rl))
    ∧
    (∀ (now : Nat) (rl : RateLimiter),
      daily_reset_step now rl ≠ rl → 86400 ≤ now - rl.last_reset)
    ∧
    (∀ (now : Nat) (rl : RateLimiter),
      86400 ≤ now - rl.last_reset →
      daily_reset_step now rl =
        { rl with daily_requests := 0, last_reset := now }) := by
  refine ⟨?_, ?_, ?_, ?_⟩
  · intro times
    induction times with
    | nil => intro rl; simp
    | cons t ts ih =>
      intro rl
      rw [List.foldl_cons, ih (record_request t rl)]
      simp only [record_request, List.length_cons]
      omega
  · intro now rl hday hquota
    simp only [can_make_request, daily_reset_step_id now rl hday]
    rw [if_pos hquota]
  · intro now rl hne
    by_contra hlt
    exact hne (daily_reset_step_id now rl (by omega))
  · intro now rl hge
    unfold daily_reset_step tdDays
    rw [if_pos (Nat.one_le_div_iff (by omega) |>.mpr hge)]

/-- Witness for C4: a limiter with `rpd = 2` and two recorded requests is
denied an hour into the day and stays denied; a day later the reset fires. -/
theorem c4_daily_quota_denies_until_rollover_witness :
    ((([3, 4] : List Nat).foldl (fun s t => record_request t s)
        { rpm := 2, tpm := 1000000, rpd := 2,
          request_times := [], daily_requests := 0, last_reset := 0 }).daily_requests
      = 0 + 2)
    ∧
    (can_make_request 3600
        { rpm := 2, tpm := 1000000, rpd := 2,
          request_times := [3, 4], daily_requests := 2, last_reset := 0 } =
      some (false, dailyMsg 2,
        { rpm := 2, tpm := 1000000, rpd := 2,
          request_times := [3, 4], daily_requests := 2, last_reset := 0 }))
    ∧
    (86400 ≤ 90000 -
      ({ rpm := 2, tpm := 1000000, rpd := 2,
         request_times := [3, 4], daily_requests := 2,
         last_reset := 0 } : RateLimiter).last_reset)
    ∧
    (daily_reset_step 90000
        { rpm := 2, tpm := 1000000, rpd := 2,
          request_times := [3, 4], daily_requests := 2, last_reset := 0 } =
      { rpm := 2, tpm := 1000000, rpd := 2,
        request_times := [3, 4], daily_requests := 0, last_reset := 90000 }) := by
  refine ⟨?_, ?_, ?_, ?_⟩
  · exact c4_daily_quota_denies_until_rollover.1 [3, 4] _
  · exact c4_daily_quota_denies_until_rollover.2.1 3600 _ (by decide) (by decide)
  · exact c4_daily_quota_denies_until_rollover.2.2.1 90000 _ (by decide)
  · exact c4_daily_quota_denies_until_rollover.2.2.2 90000 _ (by decide)

/-- Counterexample to **C6** as stated: with one request recorded at time
0 and the clock still at 0, the elapsed time is 0, so the claim predicts a
wait of `60 - 0 = 60` seconds, but the code computes
`max(0, 60 - elapsed + 1) = 61`. -/
theorem c6_get_wait_time_counterexample :
    get_wait_time 0
      { rpm := 15, tpm := 250000, rpd := 1000,
        request_times := [0], daily_requests := 1, last_reset := 0 } = 61 ∧
    get_wait_time 0
      { rpm := 15, tpm := 250000, rpd := 1000,
        request_times := [0], daily_requests := 1, last_reset := 0 }
      ≠ 60 - tdSeconds 0 0 := by
  constructor <;> decide

/-- **C6 (amended).** `get_wait_time()` returns 0 when the rolling window
is empty or the seconds component of the oldest timestamp's age is at
least 60, and otherwise returns `61 - elapsed` — one more than the number
of seconds until the oldest timestamp exits the 60-second lookback — where
`elapsed` is the seconds component (mod 86400) of the age of the oldest
timestamp. -/
theorem c6_get_wait_time_amended :
    (∀ (now : Nat) (rl : RateLimiter),
      rl.request_times = [] → get_wait_time now rl = 0)
    ∧
    (∀ (now t : Nat) (rl : RateLimiter) (ts : List Nat),
      rl.request_times = t :: ts → 60 ≤ tdSeconds now t →
      get_wait_time now rl = 0)
    ∧
    (∀ (now t : Nat) (rl : RateLimiter) (ts : List Nat),
      rl.request_times = t :: ts → tdSeconds now t < 60 →
      get_wait_time now rl = 61 - tdSeconds now t) := by
  refine ⟨?_, ?_, ?_⟩
  · intro now rl h
    simp [get_wait_time, h]
  · intro now t rl ts h hold
    simp only [get_wait_time, h]
    rw [if_neg (by omega)]
  · intro now t rl ts h hrecent
    simp only [get_wait_time, h]
    rw [if_pos hrecent]
    omega

/-- Witness for the amended C6: empty window, an expired window, and a
25-second-old oldest request giving a 36-second wait. -/
theorem c6_get_wait_time_amended_witness :
    (get_wait_time 7
      { rpm := 15, tpm := 250000, rpd := 1000,
        request_times := [], daily_requests := 0, last_reset := 0 } = 0)
    ∧
    (get_wait_time 90
      { rpm := 15, tpm := 250000, rpd := 1000,
        request_times := [10, 40], daily_requests := 2, last_reset := 0 } = 0)
    ∧
    (get_wait_time 35
      { rpm := 15, tpm := 250000, rpd := 1000,
        request_times := [10, 40], daily_requests := 2, last_reset := 0 }
      = 61 - tdSeconds 35 10) := by
  refine ⟨?_, ?_, ?_⟩
  · exact c6_get_wait_time_amended.1 7 _ rfl
  · exact c6_get_wait_time_amended.2.1 90 10 _ [40] rfl (by decide)
  · exact c6_get_wait_time_amended.2.2 35 10 _ [40] rfl (by decide)

/-! ## Chapter content stage
    (`HindiManhwaGenerator.generate_all_chapters`,
    `src/generator/hindi_manhwa_generator.py` lines 295-379) -/

/-- One entry of `self.all_chapters`; only the `chapter_num` key is read by
the loop (`ch.get('chapter_num', 0)`), and the key may be absent. -/
structure OutlineEntry where
  chapter_num : Option Nat
deriving Repr, DecidableEq

/-- `ch.get('chapter_num', 0)`. -/
def entryNum (e : OutlineEntry) : Nat := e.chapter_num.getD 0

/-- The chapter-progress checkpoint document
(`{'last_completed_chapter': ..., 'failed': [...]}`). -/
structure ChapterProgress where
  last_completed_chapter : Nat
  failed : List Nat
deriving Repr, DecidableEq

/-- Outcome of one `content_builder.generate_chapter_content` call:
content returned, falsy (empty) content, or an exception raised. -/
inductive GenOutcome where
  | success (content : String)
  | empty
  | exc (msg : String)
deriving Repr, DecidableEq

/-- Whether the outcome is truthy content. -/
def GenOutcome.isSuccess : GenOutcome → Bool
  | .success _ => true
  | _ => false

/-- Instrumented state threaded through the chapter loop: the `success`
counter and `failed` list of the code, the in-memory checkpoint dict, plus
observations — external calls issued (`calls`), checkpoint documents
persisted (`saves`), and cooldown sleeps performed (`sleeps`). -/
structure GenState where
  success : Nat
  failed : List Nat
  progress : ChapterProgress
  calls : List Nat
  saves : List ChapterProgress
  sleeps : List Nat
deriving Repr, DecidableEq

/-- State at entry of the loop: `success = 0`, `failed` aliased to the
checkpoint's failed list. -/
def initGenState (cp : ChapterProgress) : GenState :=
  { success := 0, failed := cp.failed, progress := cp,
    calls := [], saves := [], sleeps := [] }

/-- Body of the `for ch in self.all_chapters` loop.  Entries below
`current_start` are skipped; otherwise one external call is made and, per
outcome: success bumps the counter, sets `last_completed_chapter`, drops
the chapter from `failed` (first occurrence, as `list.remove`) and saves;
falsy content appends to `failed` and saves; an exception appends to
`failed`, saves, and sleeps 10 seconds.  The fold always continues. -/
def process_chapter (gen : Nat → GenOutcome) (current_start : Nat)
    (st : GenState) (e : OutlineEntry) : GenState :=
  let n := entryNum e
  if n < current_start then st
  else
    match gen n with
    | .success _ =>
      let failed1 := st.failed.erase n
      let prog1 : ChapterProgress := ⟨n, failed1⟩
      { success := st.success + 1, failed := failed1, progress := prog1,
        calls := st.calls ++ [n], saves := st.saves ++ [prog1],
        sleeps := st.sleeps }
    | .empty =>
      let failed1 := st.failed ++ [n]
      let prog1 : ChapterProgress :=
        ⟨st.progress.last_completed_chapter, failed1⟩
      { success := st.success, failed := failed1, progress := prog1,
        calls := st.calls ++ [n], saves := st.saves ++ [prog1],
        sleeps := st.sleeps }
    | .exc _ =>
      let failed1 := st.failed ++ [n]
      let prog1 : ChapterProgress :=
        ⟨st.progress.last_completed_chapter, failed1⟩
      { success := st.success, failed := failed1, progress := prog1,
        calls := st.calls ++ [n], saves := st.saves ++ [prog1],
        sleeps := st.sleeps ++ [10] }

/-- `HindiManhwaGenerator.generate_all_chapters`, from the point where the
outline list and the chapter checkpoint have been loaded.  Returns the
`(success, failed)` pair of the code together with the instrumented final
state.  With no outlines the code returns `0, list(range(start_from, 101))`
without entering the loop. -/
def generate_all_chapters (gen : Nat → GenOutcome)
    (entries : List OutlineEntry) (start_from : Nat) (cp : ChapterProgress) :
    (Nat × List Nat) × GenState :=
  if entries.length = 0 then
    ((0, List.range' start_from (101 - start_from)), initGenState cp)
  else
    let current_start := max start_from (cp.last_completed_chapter + 1)
    let final := entries.foldl (process_chapter gen current_start) (initGenState cp)
    ((final.success, final.failed), final)

/-! ### Chapter-loop lemmas -/

/-- The external calls made by the loop are exactly the entry numbers at
or above `current_start`, in order. -/
theorem foldl_process_calls (gen : Nat → GenOutcome) (cs : Nat) :
    ∀ (l : List OutlineEntry) (st : GenState),
      (l.foldl (process_chapter gen cs) st).calls =
        st.calls ++ (l.filter (fun e => cs ≤ entryNum e)).map entryNum := by
  intro l
  induction l with
  | nil => intro st; simp
  | cons e l ih =>
    intro st
    rw [List.foldl_cons, ih]
    by_cases h : entryNum e < cs
    · have hskip : process_chapter gen cs st e = st := by
        unfold process_chapter
        rw [if_pos h]
      rw [hskip, List.filter_cons_of_neg (by simpa using h)]
    · rw [List.filter_cons_of_pos (by simpa using Nat.le_of_not_lt h),
        List.map_cons]
      have hcalls : (process_chapter gen cs st e).calls =
          st.calls ++ [entryNum e] := by
        unfold process_chapter
        rw [if_neg h]
        cases gen (entryNum e) <;> rfl
      rw [hcalls, List.append_assoc]
      rfl

/-- The success counter counts exactly the attempted entries whose
generation call returns truthy content. -/
theorem foldl_process_success (gen : Nat → GenOutcome) (cs : Nat) :
    ∀ (l : List OutlineEntry) (st : GenState),
      (l.foldl (process_chapter gen cs) st).success =
        st.success +
          ((l.filter (fun e => cs ≤ entryNum e)).filter
            (fun e => (gen (entryNum e)).isSuccess)).length := by
  intro l
  induction l with
  | nil => intro st; simp
  | cons e l ih =>
    intro st
    rw [List.foldl_cons, ih]
    by_cases h : entryNum e < cs
    · have hskip : process_chapter gen cs st e = st := by
        unfold process_chapter
        rw [if_pos h]
      rw [hskip, List.filter_cons_of_neg (by simpa using h)]
    · rw [List.filter_cons_of_pos (by simpa using Nat.le_of_not_lt h)]
      cases hg : gen (entryNum e) with
      | success c =>
        rw [List.filter_cons_of_pos (by simp [hg, GenOutcome.isSuccess])]
        have hstep : (process_chapter gen cs st e).success = st.success + 1 := by
          unfold process_chapter
          rw [if_neg h, hg]
        rw [List.length_cons, hstep]
        omega
      | empty =>
        rw [List.filter_cons_of_neg (by simp [hg, GenOutcome.isSuccess])]
        have hstep : (process_chapter gen cs st e).success = st.success := by
          unfold process_chapter
          rw [if_neg h, hg]
        rw [hstep]
      | exc m =>
        rw [List.filter_cons_of_neg (by simp [hg, GenOutcome.isSuccess])]
        have hstep : (process_chapter gen cs st e).success = st.success := by
          unfold process_chapter
          rw [if_neg h, hg]
        rw [hstep]

/-- A chapter number whose generation never succeeds is never erased from
the failed list. -/
theorem foldl_process_failed_stable (gen : Nat → GenOutcome) (cs n : Nat)
    (hn : (gen n).isSuccess = false) :
    ∀ (l : List OutlineEntry) (st : GenState),
      n ∈ st.failed → n ∈ (l.foldl (process_chapter gen cs) st).failed := by
  intro l
  induction l with
  | nil => intro st h; simpa using h
  | cons e l ih =>
    intro st h
    rw [List.foldl_cons]
    refine ih _ ?_
    unfold process_chapter
    by_cases hlt : entryNum e < cs
    · rw [if_pos hlt]; exact h
    · rw [if_neg hlt]
      cases hg : gen (entryNum e) with
      | success c =>
        have hne : entryNum e ≠ n := by
          intro he
          rw [← he, hg] at hn
          simp [GenOutcome.isSuccess] at hn
        simpa using List.mem_erase_of_ne (fun he => hne he.symm) |>.mpr h
      | empty => simpa using Or.inl h
      | exc m => simpa using Or.inl h

/-- Every attempted chapter whose generation does not succeed ends up in
the failed list of the final state. -/
theorem foldl_process_failed_mem (gen : Nat → GenOutcome) (cs n : Nat)
    (hn : (gen n).isSuccess = false) :
    ∀ (l : List OutlineEntry) (st : GenState) (e : OutlineEntry),
      e ∈ l → entryNum e = n → cs ≤ n →
      n ∈ (l.foldl (process_chapter gen cs) st).failed := by
  intro l
  induction l with
  | nil => intro st e he; cases he
  | cons e0 l ih =>
    intro st e he hnum hcs
    rw [List.foldl_cons]
    cases he with
    | head =>
      refine foldl_process_failed_stable gen cs n hn l _ ?_
      unfold process_chapter
      rw [hnum, if_neg (by omega)]
      cases hg : gen n with
      | success c => rw [hg] at hn; cases hn
      | empty => simp
      | exc m => simp
    | tail _ hmem => exact ih _ e hmem hnum hcs

/-- **C2.** The chapter loop starts at `max(start_from,
last_completed_chapter + 1)`: the external generation calls are exactly
the outline entries at or above that bound, so every entry below it is
skipped with no call; in particular with `last_completed_chapter = 42` and
requested start 1, over outlines 1..100, generation calls begin at chapter
43. -/
theorem c2_resume_start_point :
    (∀ (gen : Nat → GenOutcome) (entries : List OutlineEntry)
       (start_from : Nat) (cp : ChapterProgress),
      (generate_all_chapters gen entries start_from cp).2.calls =
        (entries.filter
          (fun e => max start_from (cp.last_completed_chapter + 1) ≤ entryNum e)).map
          entryNum)
    ∧
    ((generate_all_chapters (fun _ => .success "lesson")
        ((List.range' 1 100).map (fun n => ⟨some n⟩)) 1
        ⟨42, []⟩).2.calls = List.range' 43 58) := by
  constructor
  · intro gen entries start_from cp
    unfold generate_all_chapters
    by_cases h : entries.length = 0
    · rw [if_pos h]
      rw [List.length_eq_zero.mp h]
      rfl
    · rw [if_neg h]
      rw [foldl_process_calls]
      rfl
  · decide

/-- **C7.** Failure isolation in the chapter loop: (1) an exception while
generating one attempted chapter appends that chapter to the failed list,
immediately persists the updated checkpoint, sleeps the fixed 10-second
cooldown, and leaves the loop to continue (the fold proceeds with the
returned state); (2) whatever the per-chapter outcomes, the loop still
attempts every entry at or above the resume point, so no single failure
aborts the run; (3) the returned success count is the number of attempted
chapters whose call returned content; (4) every attempted chapter whose
call did not return content is in the returned failed list. -/
theorem c7_chapter_exception_isolated :
    (∀ (gen : Nat → GenOutcome) (cs : Nat) (st : GenState)
       (e : OutlineEntry) (msg : String),
      cs ≤ entryNum e → gen (entryNum e) = .exc msg →
      process_chapter gen cs st e =
        { success := st.success, failed := st.failed ++ [entryNum e],
          progress := ⟨st.progress.last_completed_chapter,
                       st.failed ++ [entryNum e]⟩,
          calls := st.calls ++ [entryNum e],
          saves := st.saves ++ [⟨st.progress.last_completed_chapter,
                                st.failed ++ [entryNum e]⟩],
          sleeps := st.sleeps ++ [10] })
    ∧
    (∀ (gen : Nat → GenOutcome) (entries : List OutlineEntry)
       (start_from : Nat) (cp : ChapterProgress),
      (generate_all_chapters gen entries start_from cp).2.calls =
        (entries.filter
          (fun e => max start_from (cp.last_completed_chapter + 1) ≤ entryNum e)).map
          entryNum)
    ∧
    (∀ (gen : Nat → GenOutcome) (entries : List OutlineEntry)
       (start_from : Nat) (cp : ChapterProgress),
      (generate_all_chapters gen entries start_from cp).1.1 =
        ((entries.filter
          (fun e => max start_from (cp.last_completed_chapter + 1) ≤ entryNum e)).filter
          (fun e => (gen (entryNum e)).isSuccess)).length)
    ∧
    (∀ (gen : Nat → GenOutcome) (entries : List OutlineEntry)
       (start_from : Nat) (cp : ChapterProgress) (e : OutlineEntry),
      e ∈ entries →
      max start_from (cp.last_completed_chapter + 1) ≤ entryNum e →
      (gen (entryNum e)).isSuccess = false →
      entryNum e ∈ (generate_all_chapters gen entries start_from cp).1.2) := by
  refine ⟨?_, ?_, ?_, ?_⟩
  · intro gen cs st e msg hcs hg
    unfold process_chapter
    rw [if_neg (by omega), hg]
  · intro gen entries start_from cp
    unfold generate_all_chapters
    by_cases h : entries.length = 0
    · rw [if_pos h, List.length_eq_zero.mp h]
      rfl
    · rw [if_neg h, foldl_process_calls]
      rfl
  · intro gen entries start_from cp
    unfold generate_all_chapters
    by_cases h : entries.length = 0
    · rw [if_pos h, List.length_eq_zero.mp h]
      rfl
    · rw [if_neg h]
      simp only []
      rw [foldl_process_success]
      simp [initGenState]
  · intro gen entries start_from cp e he hcs hfail
    unfold generate_all_chapters
    have hne : ¬ entries.length = 0 := by
      cases entries with
      | nil => cases he
      | cons a l => simp
    rw [if_neg hne]
    exact foldl_process_failed_mem gen _ _ hfail entries _ e he rfl hcs

/-- Witness for C7: a chapter-5 exception with checkpoint
`{last_completed: 3, failed: [1]}` records 5, saves, sleeps 10s; and in a
two-entry run where every call raises, chapter 5 is reported failed. -/
theorem c7_chapter_exception_isolated_witness :
    (process_chapter (fun _ => .exc "boom") 4 (initGenState ⟨3, [1]⟩)
        ⟨some 5⟩ =
      { success := 0, failed := [1, 5], progress := ⟨3, [1, 5]⟩,
        calls := [5], saves := [⟨3, [1, 5]⟩], sleeps := [10] })
    ∧
    (5 ∈ (generate_all_chapters (fun _ => .exc "boom")
        [⟨some 5⟩, ⟨some 6⟩] 1 ⟨3, []⟩).1.2) := by
  constructor
  · exact c7_chapter_exception_isolated.1 (fun _ => .exc "boom") 4
      (initGenState ⟨3, [1]⟩) ⟨some 5⟩ "boom" (by decide) rfl
  · exact c7_chapter_exception_isolated.2.2.2 (fun _ => .exc "boom")
      [⟨some 5⟩, ⟨some 6⟩] 1 ⟨3, []⟩ ⟨some 5⟩ (by decide) (by decide) rfl

/-! ## JSON documents

The checkpoint files are arbitrary parsed JSON; the stages inspect them
with `dict.get`, `isinstance` and Python truthiness, all mirrored here.
Numbers are modelled as integers (the checkpoints only ever hold
integers). -/

/-- A parsed JSON value, as returned by `json.load` / `json.loads`. -/
inductive JsonV where
  | null
  | bool (b : Bool)
  | num (n : Int)
  | str (s : String)
  | arr (elems : List JsonV)
  | obj (fields : List (String × JsonV))

/-- Python truthiness of a JSON value. -/
def pyTruthy : JsonV → Bool
  | .null => false
  | .bool b => b
  | .num n => n != 0
  | .str s => !s.isEmpty
  | .arr xs => !xs.isEmpty
  | .obj kvs => !kvs.isEmpty

/-- `d.get(k)` on a parsed JSON object (keys unique, as `json.load`
produces); `none` is Python `None`. -/
def dictGet (kvs : List (String × JsonV)) (k : String) : Option JsonV :=
  (kvs.find? (fun kv => kv.1 == k)).map (fun kv => kv.2)

/-- Python `d.get(k) == n` against an `int`: a missing key (`None`)
compares unequal, a bool compares as 0/1, other types compare unequal. -/
def pyEqNat (v : Option JsonV) (n : Nat) : Bool :=
  match v with
  | some (.num m) => m == (n : Int)
  | some (.bool b) => (if b then (1 : Int) else 0) == (n : Int)
  | _ => false

/-! ## Batch response validation
    (`ChapterOutlineBuilder.generate_chapter_batch`,
    `src/generator/chapter_outline_builder.py` lines 71-86) -/

/-- The per-entry validity test of `generate_chapter_batch`:
`isinstance(ch, dict) and 'chapter_num' in ch`. -/
def conformingOutline : JsonV → Bool
  | .obj kvs => (dictGet kvs "chapter_num").isSome
  | _ => false

/-- The `try` block of `generate_chapter_batch` from `json.loads` onward,
applied to the parse result of the cleaned response text (`none` =
`json.JSONDecodeError`, which the code catches and turns into `[]`).
A dict is first wrapped into a singleton list; a string is iterated
character by character (Python `for ch in chapters` over a `str`); a
number/bool/null scrutinee raises an uncaught `TypeError`, modelled as
`none`. -/
def generate_chapter_batch_validate (parsed : Option JsonV) :
    Option (List JsonV) :=
  match parsed with
  | none => some []
  | some (.obj kvs) => some (List.filter conformingOutline [JsonV.obj kvs])
  | some (.arr xs) => some (xs.filter conformingOutline)
  | some (.str s) =>
    some ((s.data.map (fun c => JsonV.str (String.mk [c]))).filter
      conformingOutline)
  | some _ => none

/-! ## Checkpoint loaders
    (`HindiManhwaGenerator._load_session_index` and `_load_json_file`,
    `src/generator/hindi_manhwa_generator.py` lines 111-119 and 158-165) -/

/-- `_load_session_index`: a file is `none` (absent) or its byte contents;
`pj` abstracts `json.load`, with `none` for a parse exception.  The whole
function is total — every outcome is mapped to a value, never an
exception. -/
def load_session_index (pj : String → Option JsonV)
    (file : Option String) : JsonV :=
  match file with
  | none => .obj []
  | some s =>
    match pj s with
    | none => .obj []
    | some v => if pyTruthy v then v else .obj []

/-- `_load_json_file`: absent file or parse failure give `none` ("no prior
state"); again total by construction. -/
def load_json_file (pj : String → Option JsonV)
    (file : Option String) : Option JsonV :=
  match file with
  | none => none
  | some s =>
    match pj s with
    | none => none
    | some v => some v

/-! ## Outline stage
    (`HindiManhwaGenerator.generate_all_chapter_outlines`,
    `src/generator/hindi_manhwa_generator.py` lines 211-289) -/

/-- The outline-progress checkpoint
`{'completed_batches': [[s, e], ...], 'chapters': [...]}`, with the batch
bound pairs decoded as pairs. -/
structure OutlineProgressDoc where
  completed_batches : List (Nat × Nat)
  chapters : List JsonV

/-- The two files the outline stage touches, keyed by the session id:
`<sid>_all_chapters.json` (raw JSON; `none` = absent or corrupt) and
`<sid>_outline_progress.json` (typed; `none` = absent or corrupt). -/
structure OutlineFS where
  all_chapters_file : Option JsonV
  outline_progress_file : Option OutlineProgressDoc

/-- Outcome of one `outline_builder.generate_chapter_batch` external call:
the validated outline list it returns, or an exception. -/
inductive BatchCallResult where
  | ok (batch : List JsonV)
  | exc (msg : String)

/-- Result of one run of the outline stage: the returned
`self.all_chapters`, the external calls issued (each recorded with its
batch bounds, in order), the final file state, and the final
`self.series_foundation`. -/
structure OutlineRunResult where
  returned : List JsonV
  calls : List (Nat × Nat)
  fs : OutlineFS
  foundation : JsonV

/-- The five fixed outline batches. -/
def outline_batches : List (Nat × Nat) :=
  [(1, 20), (21, 40), (41, 60), (61, 80), (81, 100)]

/-- State threaded through the `for idx, (start, end) in enumerate(batches)`
loop: accumulated chapters, in-memory completed list, calls issued so far,
the progress file on disk, and whether `break` has fired. -/
structure OLState where
  all_chapters : List JsonV
  completed : List (Nat × Nat)
  calls : List (Nat × Nat)
  progFile : Option OutlineProgressDoc
  broke : Bool

/-- One iteration of the batch loop.  A batch in `completed_batches` is
skipped with no call.  Otherwise the builder is called (the oracle is
indexed by the number of calls made so far); an exception breaks the loop;
an empty result is retried exactly once, and a second empty result or an
exception on the retry breaks; a non-empty result is appended, the batch
is recorded completed, and the progress file is saved immediately. -/
def outline_batch_step (oracle : Nat → BatchCallResult)
    (st : OLState) (b : Nat × Nat) : OLState :=
  if st.broke then st
  else if b ∈ st.completed then st
  else
    match oracle st.calls.length with
    | .ok batch =>
      if batch.isEmpty then
        match oracle (st.calls.length + 1) with
        | .ok batch2 =>
          if batch2.isEmpty then
            { st with calls := st.calls ++ [b, b], broke := true }
          else
            let ac := st.all_chapters ++ batch2
            let comp := st.completed ++ [b]
            { all_chapters := ac, completed := comp,
              calls := st.calls ++ [b, b],
              progFile := some ⟨comp, ac⟩, broke := false }
        | .exc _ => { st with calls := st.calls ++ [b, b], broke := true }
      else
        let ac := st.all_chapters ++ batch
        let comp := st.completed ++ [b]
        { all_chapters := ac, completed := comp,
          calls := st.calls ++ [b],
          progFile := some ⟨comp, ac⟩, broke := false }
    | .exc _ => { st with calls := st.calls ++ [b], broke := true }

/-- The outline stage from the progress load onward: restore accumulated
chapters when the progress holds any, run the batch loop, write the
canonical snapshot `{foundation, chapters, total}` regardless of
completeness, and delete the progress file once 100 chapters exist. -/
def run_outline_batches (oracle : Nat → BatchCallResult) (fs : OutlineFS)
    (foundation0 : JsonV) (all_chapters0 : List JsonV) : OutlineRunResult :=
  let progress := fs.outline_progress_file.getD ⟨[], []⟩
  let ac0 := if progress.chapters.isEmpty then all_chapters0
             else progress.chapters
  let st0 : OLState :=
    ⟨ac0, progress.completed_batches, [], fs.outline_progress_file, false⟩
  let stF := outline_batches.foldl (outline_batch_step oracle) st0
  let snapshot : JsonV := .obj
    [("foundation", foundation0), ("chapters", .arr stF.all_chapters),
     ("total", .num stF.all_chapters.length)]
  { returned := stF.all_chapters, calls := stF.calls,
    fs := { all_chapters_file := some snapshot,
            outline_progress_file :=
              if 100 ≤ stF.all_chapters.length then none else stF.progFile },
    foundation := foundation0 }

/-- Result of the completeness pre-check on the canonical all-chapters
document (lines 216-223): skip straight to the loaded outlines, proceed to
the batch loop, or crash (`.get` on a truthy non-dict raises
`AttributeError`, uncaught). -/
inductive EarlyCheck where
  | complete (chs : List JsonV) (foundationField : Option JsonV)
  | proceed
  | crash

/-- The completeness pre-check: the loaded document must be truthy, its
`chapters` value a list, its `total` equal to the list length, and the
length at least 100. -/
def early_check : Option JsonV → EarlyCheck
  | none => .proceed
  | some v =>
    if pyTruthy v then
      match v with
      | .obj kvs =>
        match dictGet kvs "chapters" with
        | some (.arr chs) =>
          if pyEqNat (dictGet kvs "total") chs.length ∧ 100 ≤ chs.length then
            .complete chs (dictGet kvs "foundation")
          else .proceed
        | _ => .proceed
      | _ => .crash
    else .proceed

/-- `HindiManhwaGenerator.generate_all_chapter_outlines`: the pre-check
followed by the resumable batch loop (`none` = uncaught exception in the
pre-check). -/
def generate_all_chapter_outlines (oracle : Nat → BatchCallResult)
    (fs : OutlineFS) (foundation0 : JsonV) (all_chapters0 : List JsonV) :
    Option OutlineRunResult :=
  match early_check fs.all_chapters_file with
  | .crash => none
  | .complete chs ff =>
    some { returned := chs, calls := [], fs := fs,
           foundation := ff.getD foundation0 }
  | .proceed => some (run_outline_batches oracle fs foundation0 all_chapters0)

/-! ### Outline-stage lemmas -/

/-- On a canonical document holding a 100-entry chapter list whose `total`
matches, the pre-check reports completeness. -/
theorem early_check_complete (kvs : List (String × JsonV)) (chs : List JsonV)
    (h2 : dictGet kvs "chapters" = some (.arr chs))
    (h3 : chs.length = 100)
    (h4 : dictGet kvs "total" = some (.num 100)) :
    early_check (some (.obj kvs)) = .complete chs (dictGet kvs "foundation") := by
  have hk : kvs ≠ [] := by
    intro h
    rw [h] at h2
    simp [dictGet] at h2
  have htr : pyTruthy (.obj kvs) = true := by
    cases kvs with
    | nil => exact absurd rfl hk
    | cons a l => rfl
  show (if pyTruthy (.obj kvs) = true then
      match JsonV.obj kvs with
      | .obj kvs =>
        match dictGet kvs "chapters" with
        | some (.arr chs) =>
          if pyEqNat (dictGet kvs "total") chs.length = true ∧ 100 ≤ chs.length then
            EarlyCheck.complete chs (dictGet kvs "foundation")
          else EarlyCheck.proceed
        | _ => EarlyCheck.proceed
      | _ => EarlyCheck.crash
    else EarlyCheck.proceed) = EarlyCheck.complete chs (dictGet kvs "foundation")
  rw [if_pos htr]
  show (match dictGet kvs "chapters" with
    | some (.arr chs) =>
      if pyEqNat (dictGet kvs "total") chs.length = true ∧ 100 ≤ chs.length then
        EarlyCheck.complete chs (dictGet kvs "foundation")
      else EarlyCheck.proceed
    | _ => EarlyCheck.proceed) = EarlyCheck.complete chs (dictGet kvs "foundation")
  rw [h2]
  show (if pyEqNat (dictGet kvs "total") chs.length = true ∧ 100 ≤ chs.length then
      EarlyCheck.complete chs (dictGet kvs "foundation")
    else EarlyCheck.proceed) = EarlyCheck.complete chs (dictGet kvs "foundation")
  rw [if_pos ⟨by rw [h4, h3]; rfl, by omega⟩]

/-- A complete canonical document short-circuits the whole stage: the
loaded chapters are returned, no call is made, and no file is touched. -/
theorem outline_stage_of_complete_doc (oracle : Nat → BatchCallResult)
    (fs : OutlineFS) (f0 : JsonV) (ac0 : List JsonV)
    (kvs : List (String × JsonV)) (chs : List JsonV)
    (h1 : fs.all_chapters_file = some (.obj kvs))
    (h2 : dictGet kvs "chapters" = some (.arr chs))
    (h3 : chs.length = 100)
    (h4 : dictGet kvs "total" = some (.num 100)) :
    generate_all_chapter_outlines oracle fs f0 ac0 =
      some { returned := chs, calls := [], fs := fs,
             foundation := (dictGet kvs "foundation").getD f0 } := by
  unfold generate_all_chapter_outlines
  rw [h1, early_check_complete kvs chs h2 h3 h4]

/-- **C3.** If the canonical all-chapters document for the session exists,
parses, and holds a 100-entry chapter list with a matching recorded total,
then two consecutive runs of the outline stage both make zero external
calls, both leave the file state untouched, and both return the identical
100-entry sequence (the second run is given the file state and in-memory
chapters the first run produced). -/
theorem c3_outline_stage_idempotent_on_complete_doc
    (o1 o2 : Nat → BatchCallResult) (f0 f1 : JsonV) (ac0 : List JsonV)
    (fs : OutlineFS) (kvs : List (String × JsonV)) (chs : List JsonV)
    (h1 : fs.all_chapters_file = some (.obj kvs))
    (h2 : dictGet kvs "chapters" = some (.arr chs))
    (h3 : chs.length = 100)
    (h4 : dictGet kvs "total" = some (.num 100)) :
    ((generate_all_chapter_outlines o1 fs f0 ac0).map
        (fun r => (r.returned, r.calls, r.fs)) = some (chs, [], fs))
    ∧
    ((generate_all_chapter_outlines o2 fs f1 chs).map
        (fun r => (r.returned, r.calls, r.fs)) = some (chs, [], fs)) := by
  constructor
  · rw [outline_stage_of_complete_doc o1 fs f0 ac0 kvs chs h1 h2 h3 h4]
    rfl
  · rw [outline_stage_of_complete_doc o2 fs f1 chs kvs chs h1 h2 h3 h4]
    rfl

/-- A concrete complete chapter list: outlines 1..100. -/
def chs100 : List JsonV :=
  (List.range' 1 100).map
    (fun n => JsonV.obj [("chapter_num", JsonV.num (Int.ofNat n))])

/-- A concrete complete canonical all-chapters document. -/
def kvs100 : List (String × JsonV) :=
  [("foundation", .null), ("chapters", .arr chs100), ("total", .num 100)]

/-- File state holding the complete canonical document. -/
def fs100 : OutlineFS :=
  { all_chapters_file := some (.obj kvs100), outline_progress_file := none }

/-- Witness for C3: a concrete complete canonical document with outlines
1..100. -/
theorem c3_outline_stage_idempotent_on_complete_doc_witness :
    ((generate_all_chapter_outlines (fun _ => .exc "no call expected")
        fs100 JsonV.null []).map (fun r => (r.returned, r.calls, r.fs)) =
      some (chs100, [], fs100))
    ∧
    ((generate_all_chapter_outlines (fun _ => .exc "no call expected")
        fs100 JsonV.null chs100).map (fun r => (r.returned, r.calls, r.fs)) =
      some (chs100, [], fs100)) :=
  c3_outline_stage_idempotent_on_complete_doc
    (fun _ => .exc "no call expected") (fun _ => .exc "no call expected")
    JsonV.null JsonV.null [] fs100 kvs100 chs100 rfl rfl
    (by rw [chs100, List.length_map, List.length_range']) rfl

/-- Shape of one batch-loop iteration: either the state is returned
untouched (break already fired, or the batch is recorded completed), or
the batch was not recorded completed and exactly its own bounds are
appended to the call log (once, or twice on a retry), with the completed
list either unchanged or extended by that same batch. -/
theorem outline_batch_step_shape (oracle : Nat → BatchCallResult)
    (st : OLState) (b : Nat × Nat) :
    ((outline_batch_step oracle st b).calls = st.calls ∧
     (outline_batch_step oracle st b).completed = st.completed) ∨
    (b ∉ st.completed ∧
     ((outline_batch_step oracle st b).calls = st.calls ++ [b] ∨
      (outline_batch_step oracle st b).calls = st.calls ++ [b, b]) ∧
     ((outline_batch_step oracle st b).completed = st.completed ∨
      (outline_batch_step oracle st b).completed = st.completed ++ [b])) := by
  unfold outline_batch_step
  by_cases hbr : st.broke
  · rw [if_pos hbr]
    exact Or.inl ⟨rfl, rfl⟩
  rw [if_neg hbr]
  by_cases hmem : b ∈ st.completed
  · rw [if_pos hmem]
    exact Or.inl ⟨rfl, rfl⟩
  rw [if_neg hmem]
  refine Or.inr ⟨hmem, ?_⟩
  cases oracle st.calls.length with
  | exc m => exact ⟨Or.inl rfl, Or.inl rfl⟩
  | ok batch =>
    dsimp only
    by_cases hbe : batch.isEmpty
    · rw [if_pos hbe]
      cases oracle (st.calls.length + 1) with
      | exc m => exact ⟨Or.inr rfl, Or.inl rfl⟩
      | ok batch2 =>
        dsimp only
        by_cases hbe2 : batch2.isEmpty
        · rw [if_pos hbe2]
          exact ⟨Or.inr rfl, Or.inl rfl⟩
        · rw [if_neg hbe2]
          exact ⟨Or.inr rfl, Or.inr rfl⟩
    · rw [if_neg hbe]
      exact ⟨Or.inl rfl, Or.inr rfl⟩

/-- Batches recorded completed before the loop starts are never called:
the loop only ever calls a batch absent from the completed list, and the
completed list only grows. -/
theorem foldl_outline_skips_completed (oracle : Nat → BatchCallResult)
    (C0 : List (Nat × Nat)) :
    ∀ (l : List (Nat × Nat)) (st : OLState),
      (∀ b ∈ C0, b ∈ st.completed) → (∀ b ∈ C0, b ∉ st.calls) →
      ∀ b ∈ C0, b ∉ (l.foldl (outline_batch_step oracle) st).calls := by
  intro l
  induction l with
  | nil => intro st _ h2; exact h2
  | cons a l ih =>
    intro st h1 h2
    rw [List.foldl_cons]
    rcases outline_batch_step_shape oracle st a with
      ⟨hcalls, hcomp⟩ | ⟨hna, hcalls, hcomp⟩
    · exact ih _ (fun b hb => hcomp ▸ h1 b hb) (fun b hb => hcalls ▸ h2 b hb)
    · apply ih
      · intro b hb
        rcases hcomp with h | h <;> rw [h]
        · exact h1 b hb
        · exact List.mem_append_left _ (h1 b hb)
      · intro b hb
        have hbna : b ≠ a := fun he => hna (he ▸ h1 b hb)
        rcases hcalls with h | h <;> rw [h] <;> intro hcon <;>
          rcases List.mem_append.mp hcon with h' | h'
        · exact h2 b hb h'
        · simp at h'
          exact hbna h'
        · exact h2 b hb h'
        · simp at h'
          exact hbna h'

/-- **C5.** Completed outline batches are skipped: (1) in every run of the
outline stage, no batch recorded in the progress checkpoint's
`completed_batches` is ever called again; (2) concretely, with `(1, 20)`
recorded as completed and a builder that always returns outlines, the run
calls exactly the batches `(21, 40), (41, 60), (61, 80), (81, 100)`. -/
theorem c5_completed_batches_not_recalled :
    (∀ (oracle : Nat → BatchCallResult) (fs : OutlineFS) (f0 : JsonV)
       (ac0 : List JsonV) (r : OutlineRunResult),
      generate_all_chapter_outlines oracle fs f0 ac0 = some r →
      ∀ b ∈ (fs.outline_progress_file.getD ⟨[], []⟩).completed_batches,
        b ∉ r.calls)
    ∧
    ((generate_all_chapter_outlines
        (fun _ => .ok [JsonV.obj [("chapter_num", JsonV.num 21)]])
        { all_chapters_file := none,
          outline_progress_file :=
            some ⟨[(1, 20)], [JsonV.obj [("chapter_num", JsonV.num 1)]]⟩ }
        JsonV.null []).map (fun r => r.calls) =
      some [(21, 40), (41, 60), (61, 80), (81, 100)]) := by
  constructor
  · intro oracle fs f0 ac0 r hrun b hb
    unfold generate_all_chapter_outlines at hrun
    cases hec : early_check fs.all_chapters_file with
    | crash => rw [hec] at hrun; cases hrun
    | complete chs ff =>
      rw [hec] at hrun
      have : r.calls = [] := by
        cases hrun
        rfl
      rw [this]
      exact List.not_mem_nil b
    | proceed =>
      rw [hec] at hrun
      have hr : r = run_outline_batches oracle fs f0 ac0 := by
        cases hrun
        rfl
      rw [hr]
      unfold run_outline_batches
      exact foldl_outline_skips_completed oracle _ outline_batches _
        (fun b hb => hb) (fun b _ => List.not_mem_nil b) b hb
  · rfl

/-- Witness for C5 part (1): instantiated at the concrete run of part (2),
batch `(1, 20)` is indeed absent from the calls issued. -/
theorem c5_completed_batches_not_recalled_witness :
    (1, 20) ∉ (run_outline_batches
        (fun _ => .ok [JsonV.obj [("chapter_num", JsonV.num 21)]])
        { all_chapters_file := none,
          outline_progress_file :=
            some ⟨[(1, 20)], [JsonV.obj [("chapter_num", JsonV.num 1)]]⟩ }
        JsonV.null []).calls :=
  c5_completed_batches_not_recalled.1
    (fun _ => .ok [JsonV.obj [("chapter_num", JsonV.num 21)]])
    { all_chapters_file := none,
      outline_progress_file :=
        some ⟨[(1, 20)], [JsonV.obj [("chapter_num", JsonV.num 1)]]⟩ }
    JsonV.null [] _ rfl (1, 20) (by simp)

/-! ### Batch-validation and loader theorems -/

/-- **C8.** Response-shape recovery in `generate_chapter_batch`: (1) a
parsed response that is a single record containing `chapter_num` is
wrapped into a one-element sequence, not discarded; (2) from a parsed
array exactly the record entries containing `chapter_num` are kept and
every non-conforming entry is dropped unrepaired; (3) the validity test is
precisely "is a record containing the key `chapter_num`". -/
theorem c8_single_record_wrapped :
    (∀ (kvs : List (String × JsonV)),
      (dictGet kvs "chapter_num").isSome = true →
      generate_chapter_batch_validate (some (.obj kvs)) = some [.obj kvs])
    ∧
    (∀ (xs : List JsonV),
      generate_chapter_batch_validate (some (.arr xs)) =
        some (xs.filter conformingOutline))
    ∧
    (∀ (ch : JsonV),
      conformingOutline ch = true ↔
        ∃ kvs, ch = .obj kvs ∧ (dictGet kvs "chapter_num").isSome = true) := by
  refine ⟨?_, fun xs => rfl, ?_⟩
  · intro kvs h
    simp [generate_chapter_batch_validate, List.filter_cons, conformingOutline, h]
  · intro ch
    cases ch with
    | obj kvs =>
      simp only [conformingOutline]
      constructor
      · intro h
        exact ⟨kvs, rfl, h⟩
      · rintro ⟨kvs', he, h⟩
        injection he with h2
        rw [h2]
        exact h
    | null => simp [conformingOutline]
    | bool b => simp [conformingOutline]
    | num n => simp [conformingOutline]
    | str s => simp [conformingOutline]
    | arr xs => simp [conformingOutline]

/-- Witness for C8: a single record `{"chapter_num": 1}` is kept as a
one-element batch. -/
theorem c8_single_record_wrapped_witness :
    generate_chapter_batch_validate
        (some (.obj [("chapter_num", JsonV.num 1)])) =
      some [.obj [("chapter_num", JsonV.num 1)]] :=
  c8_single_record_wrapped.1 [("chapter_num", JsonV.num 1)] rfl

/-- **C9.** The session-index and checkpoint loaders fail open: a missing
session-index file, or one whose contents do not parse, yields the empty
mapping; a missing or unparseable checkpoint file yields `none`.  Both
loaders are total functions of the file state — no input is mapped to an
escaping exception. -/
theorem c9_loaders_fail_open :
    (∀ (pj : String → Option JsonV), load_session_index pj none = .obj [])
    ∧
    (∀ (pj : String → Option JsonV) (s : String),
      pj s = none → load_session_index pj (some s) = .obj [])
    ∧
    (∀ (pj : String → Option JsonV), load_json_file pj none = none)
    ∧
    (∀ (pj : String → Option JsonV) (s : String),
      pj s = none → load_json_file pj (some s) = none) := by
  refine ⟨fun pj => rfl, ?_, fun pj => rfl, ?_⟩
  · intro pj s h
    unfold load_session_index
    dsimp only
    rw [h]
  · intro pj s h
    unfold load_json_file
    dsimp only
    rw [h]

/-- Witness for C9: a parser that rejects everything still produces the
empty mapping / `none`. -/
theorem c9_loaders_fail_open_witness :
    load_session_index (fun _ => none) (some "not json") = .obj [] ∧
    load_json_file (fun _ => none) (some "not json") = none :=
  ⟨c9_loaders_fail_open.2.1 (fun _ => none) "not json" rfl,
   c9_loaders_fail_open.2.2.2 (fun _ => none) "not json" rfl⟩

/-! ## Previous-chapter context
    (`ContextManager.get_previous_context`,
    `src/generator/context_manager.py` lines 17-46) -/

/-- One entry of `self.generator.chapter_summaries`. -/
structure SummaryRec where
  chapter_num : Int
  title : String
  summary : String
  ending : String

/-- The lines appended for one recent summary (title line, 300-character
summary excerpt, ending, blank separator). -/
def summaryLines (s : SummaryRec) : List String :=
  ["अध्याय " ++ toString s.chapter_num ++ ": " ++ s.title,
   "- " ++ s.summary.take 300 ++ "...",
   "- अंत: " ++ s.ending,
   ""]

/-- `ContextManager.get_previous_context`: empty for chapter 1 and below;
otherwise the last up-to-3 summaries (when any exist) followed by the
persisted tail excerpt of the previous chapter (when non-empty), joined
with newlines.  `read_ending` abstracts
`read_previous_ending(chapter_num, CONTEXT_DIR)`. -/
def get_previous_context (summaries : List SummaryRec)
    (read_ending : Int → String) (chapter_num : Int) : String :=
  if chapter_num ≤ 1 then ""
  else
    let start_idx : Nat := max 0 (summaries.length - 3)
    let recent := summaries.drop start_idx
    let part1 : List String :=
      if recent.isEmpty then []
      else "पिछले अध्यायों का सारांश:" :: (recent.map summaryLines).flatten
    let ending := read_ending chapter_num
    let part2 : List String :=
      if ending = "" then []
      else ["पिछले अध्याय के अंतिम पैराग्राफ:", ending]
    String.intercalate "\n" (part1 ++ part2)

/-- **C10.** For every `chapter_num ≤ 1` the previous-chapter context is
the empty string, whatever the in-memory summary list and the context
directory contain. -/
theorem c10_no_context_for_first_chapter :
    ∀ (summaries : List SummaryRec) (read_ending : Int → String)
      (chapter_num : Int),
      chapter_num ≤ 1 →
      get_previous_context summaries read_ending chapter_num = "" := by
  intro summaries read_ending chapter_num h
  unfold get_previous_context
  rw [if_pos h]

/-- Witness for C10: chapter 1, with a non-empty summary list and a
non-empty persisted ending, still gets the empty context. -/
theorem c10_no_context_for_first_chapter_witness :
    get_previous_context [⟨0, "t", "s", "e"⟩] (fun _ => "tail") 1 = "" :=
  c10_no_context_for_first_chapter [⟨0, "t", "s", "e"⟩] (fun _ => "tail") 1
    (by decide)

end Ebook2Audio
